import Mathlib

/-!
# AudioWS relay loop (`app_audiows.c`)

A shallow embedding of `audiows_exec`: the function connects a websocket and then
pumps frames between the channel (Call Leg) and the websocket (Transport Session).

The collaborators are modelled as streams of responses indexed by the number of the
call (`Env`); the function is given as explicit state passing over the call counters
(`Counters`), and it produces the list of collaborator calls it made (`Event`).
The `while` loop is unfolded `fuel` times; an outcome of `none` means that the loop is
still running when the fuel is used up.

Log and verbose output (`ast_log`, `ast_verb`, `ast_frame_dump`) is not part of the trace.
-/

namespace AudioWS

/-- Modelled from the spec: the frame type enumeration lives in the host header
`asterisk/frame.h`, which is not part of the repository. The spec data model gives a Media
Frame one of the types AUDIO, DTMF-DIGIT and OTHER; the source tests `AST_FRAME_VOICE` and
`AST_FRAME_DTMF` only. -/
inductive ast_frame_type
  | AST_FRAME_VOICE
  | AST_FRAME_DTMF
  | AST_FRAME_OTHER
  deriving DecidableEq, Repr

/-- Modelled from the spec: the opcode enumeration lives in the host header
`asterisk/http_websocket.h`, which is not part of the repository. The spec data model gives
a Transport Message one of the opcodes BINARY, TEXT, CLOSE and OTHER-CONTROL. -/
inductive ast_websocket_opcode
  | AST_WEBSOCKET_OPCODE_BINARY
  | AST_WEBSOCKET_OPCODE_TEXT
  | AST_WEBSOCKET_OPCODE_CLOSE
  | AST_WEBSOCKET_OPCODE_OTHER
  deriving DecidableEq, Repr

/-- Modelled from the spec: the connection result enumeration of the host header; the
source only compares it with `WS_OK`. -/
inductive ast_websocket_result
  | WS_OK
  | WS_ERROR
  deriving DecidableEq, Repr

/-- The fields of `struct ast_frame` that `audiows_exec` touches. `data` is the byte
sequence behind `data.ptr`; `datalen` is its length as reported by the frame. -/
structure ast_frame where
  frametype : ast_frame_type
  subclass_integer : Int
  datalen : Nat
  data : List Nat
  delivery_tv_sec : Int
  delivery_tv_usec : Int
  deriving DecidableEq, Repr

/-- What one call of `ast_websocket_read` hands back: the return value and the four
out-parameters (meaningful when `ret = 0`). -/
structure ws_read_result where
  ret : Int
  payload : List Nat
  payload_len : Nat
  opcode : ast_websocket_opcode
  fragmented : Int
  deriving DecidableEq, Repr

/-- The collaborators, as streams of responses: the `k`-th entry is what the `k`-th call
(counting from 0) of that primitive returns. `args_url` is the first argument that the host
macro `AST_STANDARD_APP_ARGS` splits off a non-empty `data`; `create_result` is the result
reported by `ast_websocket_client_create`. -/
structure Env where
  args_url : String → String
  create_result : ast_websocket_result
  ast_waitfor : Nat → Int
  ast_read : Nat → Option ast_frame
  ast_websocket_write : Nat → Int
  ast_websocket_read : Nat → ws_read_result
  ast_write : Nat → Int

/-- A collaborator call made by `audiows_exec`. A frame pointer is represented by the
handle `h`, the number of the `ast_read` call that returned it. `ast_read` records the frame
it handed out (`none` for `NULL`); `ast_write` records the contents of the frame at the time
of the call. `ast_websocket_close` is the close operation of the Transport Session. -/
inductive Event
  | pbx_builtin_setvar_helper (name value : String)
  | ast_websocket_client_create (uri protocols : String)
  | ast_waitfor
  | ast_read (h : Nat) (f : Option ast_frame)
  | ast_websocket_write (opcode : ast_websocket_opcode) (payload : List Nat) (size : Nat)
  | ast_websocket_read
  | ast_write (h : Nat) (f : ast_frame)
  | ast_frfree (h : Nat)
  | ast_websocket_close
  deriving DecidableEq, Repr

/-- The statement through which control leaves the loop. -/
inductive Exit
  /-- Line 93: the loop condition `ast_waitfor(chan, -1) > -1` is false. -/
  | wait_failed
  /-- Line 96: `ast_read` returned `NULL`, `break`. -/
  | read_null
  /-- Line 120: `ast_websocket_read` failed, `return -1`. -/
  | ws_read_error
  /-- Line 126: opcode CLOSE, `return -1`. -/
  | ws_closed
  /-- Line 162: `ast_write` failed, `goto end`. -/
  | write_failed
  /-- Line 168: DTMF frame with the digit `#`, `goto end`. -/
  | hangup_digit
  deriving DecidableEq, Repr

/-- How many calls of each primitive have been made so far. -/
structure Counters where
  nwait : Nat
  nread : Nat
  nsend : Nat
  nrecv : Nat
  nwrite : Nat
  deriving DecidableEq, Repr

/-- No call has been made yet. -/
def Counters.init : Counters := ⟨0, 0, 0, 0, 0⟩

/-- ASCII code of the character `#`, compared with `f->subclass.integer` on line 165. -/
def HANGUP_DIGIT : Int := 35

/-- Lines 102 and 103: `f->delivery.tv_sec = 0; f->delivery.tv_usec = 0;`. -/
def reset_delivery (f : ast_frame) : ast_frame :=
  { f with delivery_tv_sec := 0, delivery_tv_usec := 0 }

/-- The result of one pass through the loop body: the calls made, the counters afterwards,
and `some (exit, status)` when the function returns from this pass. -/
abbrev Step := List Event × Counters × Option (Exit × Int)

/-- Lines 165 to 170: the check for the hang-up digit and the release of the frame.
`pre` are the calls already made in this pass. -/
def hangup_check (pre : List Event) (s : Counters) (h : Nat) (f : ast_frame) : Step :=
  if f.frametype = ast_frame_type.AST_FRAME_DTMF ∧ f.subclass_integer = HANGUP_DIGIT then
    -- res = 0; ast_frfree(f); goto end;
    (pre ++ [Event.ast_frfree h], s, some (Exit.hangup_digit, 0))
  else
    -- ast_frfree(f); next pass
    (pre ++ [Event.ast_frfree h], s, none)

/-- Lines 93 to 171: one evaluation of the loop condition followed by one pass through the
loop body. `res` is the local variable `res`. -/
def loop_body (env : Env) (res : Int) (s : Counters) : Step :=
  let s1 := { s with nwait := s.nwait + 1 }
  if ¬ (env.ast_waitfor s.nwait > -1) then
    ([Event.ast_waitfor], s1, some (Exit.wait_failed, res))
  else
    let h := s.nread
    let s2 := { s1 with nread := s.nread + 1 }
    match env.ast_read h with
    | none => ([Event.ast_waitfor, Event.ast_read h none], s2, some (Exit.read_null, res))
    | some f0 =>
      let f := reset_delivery f0
      let pre := [Event.ast_waitfor, Event.ast_read h (some f0)]
      if f.frametype = ast_frame_type.AST_FRAME_VOICE then
        -- line 108: a non-zero result of the send is logged and otherwise dropped
        let _sent := env.ast_websocket_write s.nsend
        let s3 := { s2 with nsend := s.nsend + 1 }
        let pre := pre ++ [Event.ast_websocket_write
          ast_websocket_opcode.AST_WEBSOCKET_OPCODE_BINARY f.data f.datalen]
        let m := env.ast_websocket_read s.nrecv
        let s4 := { s3 with nrecv := s.nrecv + 1 }
        let pre := pre ++ [Event.ast_websocket_read]
        if m.ret ≠ 0 then
          (pre, s4, some (Exit.ws_read_error, -1))
        else if m.opcode = ast_websocket_opcode.AST_WEBSOCKET_OPCODE_CLOSE then
          (pre, s4, some (Exit.ws_closed, -1))
        else
          -- BINARY, TEXT and the default case all leave the switch with `break`
          let s5 := { s4 with nwrite := s.nwrite + 1 }
          let pre := pre ++ [Event.ast_write h f]
          if env.ast_write s.nwrite ≠ 0 then
            (pre ++ [Event.ast_frfree h], s5, some (Exit.write_failed, res))
          else
            hangup_check pre s5 h f
      else
        hangup_check pre s2 h f

/-- Lines 93 to 173: the loop, unfolded at most `fuel` times, followed by `return res`.
The outcome is `none` when the loop is still running after `fuel` passes. -/
def relay_loop : Nat → Env → Int → Counters → Step
  | 0, _, _, s => ([], s, none)
  | fuel + 1, env, res, s =>
    match loop_body env res s with
    | (evs, s1, some r) => (evs, s1, some r)
    | (evs, s1, none) =>
      match relay_loop fuel env res s1 with
      | (evs2, s2, r) => (evs ++ evs2, s2, r)

/-- Lines 91 to 173 of `audiows_exec`: `int res = -1;`, then the loop started with no call
made yet, then `return res`. -/
def audiows_loop (env : Env) (fuel : Nat) : Step :=
  relay_loop fuel env (-1) Counters.init

/-- The function `audiows_exec`. `data` is the application argument (`none` for `NULL`).
The result is the trace of collaborator calls and the returned status, `none` when the loop
is still running after `fuel` passes. -/
def audiows_exec (env : Env) (data : Option String) (fuel : Nat) : List Event × Option Int :=
  match data with
  | none => ([], some (-1))
  | some d =>
    if d.isEmpty then ([], some (-1))
    else
      let url := env.args_url d
      if url.isEmpty then ([], some (-1))
      else
        let pre := [Event.pbx_builtin_setvar_helper "AUDIOWS_URL" url,
          Event.ast_websocket_client_create url "echo"]
        if env.create_result ≠ ast_websocket_result.WS_OK then (pre, some (-1))
        else
          match audiows_loop env fuel with
          | (evs, _, r) => (pre ++ evs, r.map Prod.snd)

/-! ## Observations on traces -/

/-- The event is a Call Leg write. -/
def Event.isLegWrite : Event → Bool
  | Event.ast_write _ _ => true
  | _ => false

/-- The event is a transport send. -/
def Event.isSend : Event → Bool
  | Event.ast_websocket_write _ _ _ => true
  | _ => false

/-- The event is a transport receive. -/
def Event.isRecv : Event → Bool
  | Event.ast_websocket_read => true
  | _ => false

/-- The event is a Call Leg read that handed out an audio frame. -/
def Event.isAudioRead : Event → Bool
  | Event.ast_read _ (some f) => decide (f.frametype = ast_frame_type.AST_FRAME_VOICE)
  | _ => false

/-! ## Predicates on passes and traces -/

/-- The terminal condition named by an exit, read off the responses of the last call of
each primitive (`s` are the counters when the function returns). -/
def ended_on (env : Env) (s : Counters) : Exit → Prop
  | Exit.wait_failed => ¬ (env.ast_waitfor (s.nwait - 1) > -1)
  | Exit.read_null => env.ast_read (s.nread - 1) = none
  | Exit.ws_read_error => (env.ast_websocket_read (s.nrecv - 1)).ret ≠ 0
  | Exit.ws_closed => (env.ast_websocket_read (s.nrecv - 1)).ret = 0 ∧
      (env.ast_websocket_read (s.nrecv - 1)).opcode =
        ast_websocket_opcode.AST_WEBSOCKET_OPCODE_CLOSE
  | Exit.write_failed => env.ast_write (s.nwrite - 1) ≠ 0
  | Exit.hangup_digit => ∃ f, env.ast_read (s.nread - 1) = some f ∧
      f.frametype = ast_frame_type.AST_FRAME_DTMF ∧ f.subclass_integer = HANGUP_DIGIT

/-- The branches of one pass, each with the responses that select it. -/
inductive BodyCase (env : Env) (res : Int) (s : Counters) : Step → Prop
  | wait_failed (hw : ¬ (env.ast_waitfor s.nwait > -1)) :
      BodyCase env res s
        ([Event.ast_waitfor], { s with nwait := s.nwait + 1 }, some (Exit.wait_failed, res))
  | read_null (hw : env.ast_waitfor s.nwait > -1) (hr : env.ast_read s.nread = none) :
      BodyCase env res s
        ([Event.ast_waitfor, Event.ast_read s.nread none],
          { s with nwait := s.nwait + 1, nread := s.nread + 1 }, some (Exit.read_null, res))
  | recv_failed (f : ast_frame) (hw : env.ast_waitfor s.nwait > -1)
      (hr : env.ast_read s.nread = some f)
      (hv : f.frametype = ast_frame_type.AST_FRAME_VOICE)
      (hm : (env.ast_websocket_read s.nrecv).ret ≠ 0) :
      BodyCase env res s
        ([Event.ast_waitfor, Event.ast_read s.nread (some f),
          Event.ast_websocket_write ast_websocket_opcode.AST_WEBSOCKET_OPCODE_BINARY
            f.data f.datalen,
          Event.ast_websocket_read],
          { s with nwait := s.nwait + 1, nread := s.nread + 1, nsend := s.nsend + 1,
                   nrecv := s.nrecv + 1 },
          some (Exit.ws_read_error, -1))
  | recv_close (f : ast_frame) (hw : env.ast_waitfor s.nwait > -1)
      (hr : env.ast_read s.nread = some f)
      (hv : f.frametype = ast_frame_type.AST_FRAME_VOICE)
      (hm : (env.ast_websocket_read s.nrecv).ret = 0)
      (hc : (env.ast_websocket_read s.nrecv).opcode =
        ast_websocket_opcode.AST_WEBSOCKET_OPCODE_CLOSE) :
      BodyCase env res s
        ([Event.ast_waitfor, Event.ast_read s.nread (some f),
          Event.ast_websocket_write ast_websocket_opcode.AST_WEBSOCKET_OPCODE_BINARY
            f.data f.datalen,
          Event.ast_websocket_read],
          { s with nwait := s.nwait + 1, nread := s.nread + 1, nsend := s.nsend + 1,
                   nrecv := s.nrecv + 1 },
          some (Exit.ws_closed, -1))
  | write_failed (f : ast_frame) (hw : env.ast_waitfor s.nwait > -1)
      (hr : env.ast_read s.nread = some f)
      (hv : f.frametype = ast_frame_type.AST_FRAME_VOICE)
      (hm : (env.ast_websocket_read s.nrecv).ret = 0)
      (hc : (env.ast_websocket_read s.nrecv).opcode ≠
        ast_websocket_opcode.AST_WEBSOCKET_OPCODE_CLOSE)
      (hx : env.ast_write s.nwrite ≠ 0) :
      BodyCase env res s
        ([Event.ast_waitfor, Event.ast_read s.nread (some f),
          Event.ast_websocket_write ast_websocket_opcode.AST_WEBSOCKET_OPCODE_BINARY
            f.data f.datalen,
          Event.ast_websocket_read, Event.ast_write s.nread (reset_delivery f),
          Event.ast_frfree s.nread],
          { s with nwait := s.nwait + 1, nread := s.nread + 1, nsend := s.nsend + 1,
                   nrecv := s.nrecv + 1, nwrite := s.nwrite + 1 },
          some (Exit.write_failed, res))
  | echoed (f : ast_frame) (hw : env.ast_waitfor s.nwait > -1)
      (hr : env.ast_read s.nread = some f)
      (hv : f.frametype = ast_frame_type.AST_FRAME_VOICE)
      (hm : (env.ast_websocket_read s.nrecv).ret = 0)
      (hc : (env.ast_websocket_read s.nrecv).opcode ≠
        ast_websocket_opcode.AST_WEBSOCKET_OPCODE_CLOSE)
      (hx : env.ast_write s.nwrite = 0) :
      BodyCase env res s
        ([Event.ast_waitfor, Event.ast_read s.nread (some f),
          Event.ast_websocket_write ast_websocket_opcode.AST_WEBSOCKET_OPCODE_BINARY
            f.data f.datalen,
          Event.ast_websocket_read, Event.ast_write s.nread (reset_delivery f),
          Event.ast_frfree s.nread],
          { s with nwait := s.nwait + 1, nread := s.nread + 1, nsend := s.nsend + 1,
                   nrecv := s.nrecv + 1, nwrite := s.nwrite + 1 },
          none)
  | hangup (f : ast_frame) (hw : env.ast_waitfor s.nwait > -1)
      (hr : env.ast_read s.nread = some f)
      (hd : f.frametype = ast_frame_type.AST_FRAME_DTMF)
      (hg : f.subclass_integer = HANGUP_DIGIT) :
      BodyCase env res s
        ([Event.ast_waitfor, Event.ast_read s.nread (some f), Event.ast_frfree s.nread],
          { s with nwait := s.nwait + 1, nread := s.nread + 1 },
          some (Exit.hangup_digit, 0))
  | skipped (f : ast_frame) (hw : env.ast_waitfor s.nwait > -1)
      (hr : env.ast_read s.nread = some f)
      (hv : f.frametype ≠ ast_frame_type.AST_FRAME_VOICE)
      (hd : ¬ (f.frametype = ast_frame_type.AST_FRAME_DTMF ∧
        f.subclass_integer = HANGUP_DIGIT)) :
      BodyCase env res s
        ([Event.ast_waitfor, Event.ast_read s.nread (some f), Event.ast_frfree s.nread],
          { s with nwait := s.nwait + 1, nread := s.nread + 1 },
          none)

/-- Every receive stands right after the send of the audio frame that was just read. -/
def RecvFollowsSend (evs : List Event) : Prop :=
  ∀ pre post, evs = pre ++ Event.ast_websocket_read :: post →
    ∃ pre2 h f, f.frametype = ast_frame_type.AST_FRAME_VOICE ∧
      pre = pre2 ++ [Event.ast_read h (some f),
        Event.ast_websocket_write ast_websocket_opcode.AST_WEBSOCKET_OPCODE_BINARY
          f.data f.datalen]

/-- What is sent is the payload of an audio frame that was read. -/
def SendsAudioOnly (evs : List Event) : Prop :=
  ∀ op p n, Event.ast_websocket_write op p n ∈ evs →
    ∃ h g, Event.ast_read h (some g) ∈ evs ∧
      g.frametype = ast_frame_type.AST_FRAME_VOICE ∧
      op = ast_websocket_opcode.AST_WEBSOCKET_OPCODE_BINARY ∧ p = g.data ∧ n = g.datalen

/-! ## Concrete collaborators used for evaluation -/

/-- An audio frame with `n` payload bytes of value `b`. -/
def audio_frame (n b : Nat) : ast_frame :=
  ⟨ast_frame_type.AST_FRAME_VOICE, 0, n, List.replicate n b, 7, 9⟩

/-- A DTMF frame carrying the digit with code `d`. -/
def dtmf_frame (d : Int) : ast_frame :=
  ⟨ast_frame_type.AST_FRAME_DTMF, d, 0, [], 7, 9⟩

/-- A successful receive of `n` bytes of value `b` with the given opcode. -/
def ws_ok (op : ast_websocket_opcode) (n b : Nat) : ws_read_result :=
  ⟨0, List.replicate n b, n, op, 0⟩

/-- A failed receive. -/
def ws_fail : ws_read_result :=
  ⟨-1, [], 0, ast_websocket_opcode.AST_WEBSOCKET_OPCODE_OTHER, 0⟩

/-- The scenario of the spec: the Call Leg produces two audio frames of 100 bytes and then
the digit `#`; the transport returns a 50 byte BINARY message twice, then TEXT, then fails;
every send and every Call Leg write succeeds. -/
def env_e2e : Env where
  args_url := fun d => d
  create_result := ast_websocket_result.WS_OK
  ast_waitfor := fun _ => 0
  ast_read := fun k =>
    if k < 2 then some (audio_frame 100 1)
    else if k = 2 then some (dtmf_frame HANGUP_DIGIT) else none
  ast_websocket_write := fun _ => 0
  ast_websocket_read := fun k =>
    if k < 2 then ws_ok ast_websocket_opcode.AST_WEBSOCKET_OPCODE_BINARY 50 2
    else if k = 2 then ws_ok ast_websocket_opcode.AST_WEBSOCKET_OPCODE_TEXT 3 5 else ws_fail
  ast_write := fun _ => 0

/-- The Call Leg produces audio frames of 4 bytes; the first receive fails. -/
def env_recv_fail : Env where
  args_url := fun d => d
  create_result := ast_websocket_result.WS_OK
  ast_waitfor := fun _ => 0
  ast_read := fun _ => some (audio_frame 4 1)
  ast_websocket_write := fun _ => 0
  ast_websocket_read := fun _ => ws_fail
  ast_write := fun _ => 0

/-- The Call Leg produces audio frames of 4 bytes; the first receive is a CLOSE message. -/
def env_recv_close : Env where
  args_url := fun d => d
  create_result := ast_websocket_result.WS_OK
  ast_waitfor := fun _ => 0
  ast_read := fun _ => some (audio_frame 4 1)
  ast_websocket_write := fun _ => 0
  ast_websocket_read := fun _ => ws_ok ast_websocket_opcode.AST_WEBSOCKET_OPCODE_CLOSE 0 0
  ast_write := fun _ => 0

/-- The Call Leg produces audio frames of 4 bytes; every receive is a TEXT message of 3
bytes; the Call Leg write fails. -/
def env_text_write_fail : Env where
  args_url := fun d => d
  create_result := ast_websocket_result.WS_OK
  ast_waitfor := fun _ => 0
  ast_read := fun _ => some (audio_frame 4 1)
  ast_websocket_write := fun _ => 0
  ast_websocket_read := fun _ => ws_ok ast_websocket_opcode.AST_WEBSOCKET_OPCODE_TEXT 3 5
  ast_write := fun _ => -1

/-- The Call Leg produces audio frames of 4 bytes; every receive is a TEXT message of 3
bytes; every send fails and every Call Leg write succeeds. -/
def env_text_ok : Env where
  args_url := fun d => d
  create_result := ast_websocket_result.WS_OK
  ast_waitfor := fun _ => 0
  ast_read := fun _ => some (audio_frame 4 1)
  ast_websocket_write := fun _ => -1
  ast_websocket_read := fun _ => ws_ok ast_websocket_opcode.AST_WEBSOCKET_OPCODE_TEXT 3 5
  ast_write := fun _ => 0

/-! ## The loop body, branch by branch -/

theorem lb_wait_failed (env : Env) (res : Int) (s : Counters)
    (hw : ¬ (env.ast_waitfor s.nwait > -1)) :
    loop_body env res s =
      ([Event.ast_waitfor], { s with nwait := s.nwait + 1 }, some (Exit.wait_failed, res)) := by
  simp [loop_body, hw]

theorem lb_read_null (env : Env) (res : Int) (s : Counters)
    (hw : env.ast_waitfor s.nwait > -1) (hr : env.ast_read s.nread = none) :
    loop_body env res s =
      ([Event.ast_waitfor, Event.ast_read s.nread none],
        { s with nwait := s.nwait + 1, nread := s.nread + 1 }, some (Exit.read_null, res)) := by
  simp [loop_body, hw, hr]

theorem lb_recv_failed (env : Env) (res : Int) (s : Counters) (f : ast_frame)
    (hw : env.ast_waitfor s.nwait > -1) (hr : env.ast_read s.nread = some f)
    (hv : f.frametype = ast_frame_type.AST_FRAME_VOICE)
    (hm : (env.ast_websocket_read s.nrecv).ret ≠ 0) :
    loop_body env res s =
      ([Event.ast_waitfor, Event.ast_read s.nread (some f),
        Event.ast_websocket_write ast_websocket_opcode.AST_WEBSOCKET_OPCODE_BINARY f.data f.datalen,
        Event.ast_websocket_read],
        { s with nwait := s.nwait + 1, nread := s.nread + 1, nsend := s.nsend + 1,
                 nrecv := s.nrecv + 1 },
        some (Exit.ws_read_error, -1)) := by
  simp [loop_body, reset_delivery, hw, hr, hv, hm]

theorem lb_recv_close (env : Env) (res : Int) (s : Counters) (f : ast_frame)
    (hw : env.ast_waitfor s.nwait > -1) (hr : env.ast_read s.nread = some f)
    (hv : f.frametype = ast_frame_type.AST_FRAME_VOICE)
    (hm : (env.ast_websocket_read s.nrecv).ret = 0)
    (hc : (env.ast_websocket_read s.nrecv).opcode =
      ast_websocket_opcode.AST_WEBSOCKET_OPCODE_CLOSE) :
    loop_body env res s =
      ([Event.ast_waitfor, Event.ast_read s.nread (some f),
        Event.ast_websocket_write ast_websocket_opcode.AST_WEBSOCKET_OPCODE_BINARY f.data f.datalen,
        Event.ast_websocket_read],
        { s with nwait := s.nwait + 1, nread := s.nread + 1, nsend := s.nsend + 1,
                 nrecv := s.nrecv + 1 },
        some (Exit.ws_closed, -1)) := by
  simp [loop_body, reset_delivery, hw, hr, hv, hm, hc]

theorem lb_write_failed (env : Env) (res : Int) (s : Counters) (f : ast_frame)
    (hw : env.ast_waitfor s.nwait > -1) (hr : env.ast_read s.nread = some f)
    (hv : f.frametype = ast_frame_type.AST_FRAME_VOICE)
    (hm : (env.ast_websocket_read s.nrecv).ret = 0)
    (hc : (env.ast_websocket_read s.nrecv).opcode ≠
      ast_websocket_opcode.AST_WEBSOCKET_OPCODE_CLOSE)
    (hx : env.ast_write s.nwrite ≠ 0) :
    loop_body env res s =
      ([Event.ast_waitfor, Event.ast_read s.nread (some f),
        Event.ast_websocket_write ast_websocket_opcode.AST_WEBSOCKET_OPCODE_BINARY f.data f.datalen,
        Event.ast_websocket_read, Event.ast_write s.nread (reset_delivery f),
        Event.ast_frfree s.nread],
        { s with nwait := s.nwait + 1, nread := s.nread + 1, nsend := s.nsend + 1,
                 nrecv := s.nrecv + 1, nwrite := s.nwrite + 1 },
        some (Exit.write_failed, res)) := by
  simp [loop_body, hw, hr, hv, hm, hc, hx, reset_delivery]

theorem lb_echoed (env : Env) (res : Int) (s : Counters) (f : ast_frame)
    (hw : env.ast_waitfor s.nwait > -1) (hr : env.ast_read s.nread = some f)
    (hv : f.frametype = ast_frame_type.AST_FRAME_VOICE)
    (hm : (env.ast_websocket_read s.nrecv).ret = 0)
    (hc : (env.ast_websocket_read s.nrecv).opcode ≠
      ast_websocket_opcode.AST_WEBSOCKET_OPCODE_CLOSE)
    (hx : env.ast_write s.nwrite = 0) :
    loop_body env res s =
      ([Event.ast_waitfor, Event.ast_read s.nread (some f),
        Event.ast_websocket_write ast_websocket_opcode.AST_WEBSOCKET_OPCODE_BINARY f.data f.datalen,
        Event.ast_websocket_read, Event.ast_write s.nread (reset_delivery f),
        Event.ast_frfree s.nread],
        { s with nwait := s.nwait + 1, nread := s.nread + 1, nsend := s.nsend + 1,
                 nrecv := s.nrecv + 1, nwrite := s.nwrite + 1 },
        none) := by
  simp [loop_body, hangup_check, hw, hr, hv, hm, hc, hx, reset_delivery]

theorem lb_hangup (env : Env) (res : Int) (s : Counters) (f : ast_frame)
    (hw : env.ast_waitfor s.nwait > -1) (hr : env.ast_read s.nread = some f)
    (hd : f.frametype = ast_frame_type.AST_FRAME_DTMF) (hg : f.subclass_integer = HANGUP_DIGIT) :
    loop_body env res s =
      ([Event.ast_waitfor, Event.ast_read s.nread (some f), Event.ast_frfree s.nread],
        { s with nwait := s.nwait + 1, nread := s.nread + 1 },
        some (Exit.hangup_digit, 0)) := by
  simp [loop_body, hangup_check, reset_delivery, hw, hr, hd, hg]

theorem lb_skipped (env : Env) (res : Int) (s : Counters) (f : ast_frame)
    (hw : env.ast_waitfor s.nwait > -1) (hr : env.ast_read s.nread = some f)
    (hv : f.frametype ≠ ast_frame_type.AST_FRAME_VOICE)
    (hd : ¬ (f.frametype = ast_frame_type.AST_FRAME_DTMF ∧ f.subclass_integer = HANGUP_DIGIT)) :
    loop_body env res s =
      ([Event.ast_waitfor, Event.ast_read s.nread (some f), Event.ast_frfree s.nread],
        { s with nwait := s.nwait + 1, nread := s.nread + 1 },
        none) := by
  simp [loop_body, hangup_check, reset_delivery, hw, hr, hv, hd]

/-- Every pass through the loop body takes exactly one of the branches of `BodyCase`. -/
theorem loop_body_spec (env : Env) (res : Int) (s : Counters) :
    BodyCase env res s (loop_body env res s) := by
  by_cases hw : env.ast_waitfor s.nwait > -1
  · cases hr : env.ast_read s.nread with
    | none => rw [lb_read_null env res s hw hr]; exact BodyCase.read_null hw hr
    | some f =>
      by_cases hv : f.frametype = ast_frame_type.AST_FRAME_VOICE
      · by_cases hm : (env.ast_websocket_read s.nrecv).ret = 0
        · by_cases hc : (env.ast_websocket_read s.nrecv).opcode =
              ast_websocket_opcode.AST_WEBSOCKET_OPCODE_CLOSE
          · rw [lb_recv_close env res s f hw hr hv hm hc]
            exact BodyCase.recv_close f hw hr hv hm hc
          · by_cases hx : env.ast_write s.nwrite = 0
            · rw [lb_echoed env res s f hw hr hv hm hc hx]
              exact BodyCase.echoed f hw hr hv hm hc hx
            · rw [lb_write_failed env res s f hw hr hv hm hc hx]
              exact BodyCase.write_failed f hw hr hv hm hc hx
        · rw [lb_recv_failed env res s f hw hr hv hm]
          exact BodyCase.recv_failed f hw hr hv hm
      · by_cases hd : f.frametype = ast_frame_type.AST_FRAME_DTMF ∧
            f.subclass_integer = HANGUP_DIGIT
        · rw [lb_hangup env res s f hw hr hd.1 hd.2]
          exact BodyCase.hangup f hw hr hd.1 hd.2
        · rw [lb_skipped env res s f hw hr hv hd]
          exact BodyCase.skipped f hw hr hv hd
  · rw [lb_wait_failed env res s hw]; exact BodyCase.wait_failed hw

/-- No pass through the loop body closes the websocket. -/
theorem loop_body_no_close (env : Env) (res : Int) (s : Counters) :
    ∀ e ∈ (loop_body env res s).1, e ≠ Event.ast_websocket_close := by
  have hc := loop_body_spec env res s
  revert hc
  generalize loop_body env res s = st
  intro hc
  cases hc <;> simp

/-- In a pass, and so in a run, there are no more receives than audio frames read. -/
theorem loop_body_recv_le (env : Env) (res : Int) (s : Counters) :
    (loop_body env res s).1.countP Event.isRecv ≤
      (loop_body env res s).1.countP Event.isAudioRead := by
  have hc := loop_body_spec env res s
  revert hc
  generalize loop_body env res s = st
  intro hc
  cases hc <;> simp [Event.isRecv, Event.isAudioRead, *]

/-- The pass does not look at what the send returned. -/
theorem loop_body_send_irrelevant (env : Env) (g : Nat → Int) (res : Int) (s : Counters) :
    loop_body { env with ast_websocket_write := g } res s = loop_body env res s := rfl

theorem RecvFollowsSend_append (a b : List Event) (ha : RecvFollowsSend a)
    (hb : RecvFollowsSend b) : RecvFollowsSend (a ++ b) := by
  intro pre post h
  rcases List.append_eq_append_iff.mp h with ⟨a2, h1, h2⟩ | ⟨c, h1, h2⟩
  · obtain ⟨pre2, hh, f, hv, hp⟩ := hb a2 post h2
    exact ⟨a ++ pre2, hh, f, hv, by simp [h1, hp]⟩
  · cases c with
    | nil =>
      simp only [List.nil_append] at h2
      obtain ⟨pre2, hh, f, -, hp⟩ := hb [] post h2.symm
      simp at hp
    | cons e c2 =>
      simp only [List.cons_append, List.cons.injEq] at h2
      obtain ⟨he, -⟩ := h2
      subst he
      exact ha pre c2 h1

theorem RecvFollowsSend_body (env : Env) (res : Int) (s : Counters) :
    RecvFollowsSend (loop_body env res s).1 := by
  have hc := loop_body_spec env res s
  revert hc
  generalize loop_body env res s = st
  intro hc pre post h
  cases hc with
  | wait_failed hw =>
    have : Event.ast_websocket_read ∈ [Event.ast_waitfor] := by
      simp only at h; rw [h]; simp
    simp at this
  | read_null hw hr =>
    have : Event.ast_websocket_read ∈ [Event.ast_waitfor, Event.ast_read s.nread none] := by
      simp only at h; rw [h]; simp
    simp at this
  | hangup f hw hr hd hg =>
    have : Event.ast_websocket_read ∈
        [Event.ast_waitfor, Event.ast_read s.nread (some f), Event.ast_frfree s.nread] := by
      simp only at h; rw [h]; simp
    simp at this
  | skipped f hw hr hv hd =>
    have : Event.ast_websocket_read ∈
        [Event.ast_waitfor, Event.ast_read s.nread (some f), Event.ast_frfree s.nread] := by
      simp only at h; rw [h]; simp
    simp at this
  | recv_failed f hw hr hv hm =>
    simp only at h
    rcases pre with _ | ⟨a, _ | ⟨b, _ | ⟨c, _ | ⟨d, pre⟩⟩⟩⟩ <;> simp at h
    obtain ⟨h1, h2, h3, -⟩ := h
    subst h1 h2 h3
    exact ⟨[Event.ast_waitfor], s.nread, f, hv, by simp⟩
  | recv_close f hw hr hv hm hc =>
    simp only at h
    rcases pre with _ | ⟨a, _ | ⟨b, _ | ⟨c, _ | ⟨d, pre⟩⟩⟩⟩ <;> simp at h
    obtain ⟨h1, h2, h3, -⟩ := h
    subst h1 h2 h3
    exact ⟨[Event.ast_waitfor], s.nread, f, hv, by simp⟩
  | write_failed f hw hr hv hm hc hx =>
    simp only at h
    rcases pre with _ | ⟨a, _ | ⟨b, _ | ⟨c, _ | ⟨d, _ | ⟨e, _ | ⟨g, pre⟩⟩⟩⟩⟩⟩ <;> simp at h
    obtain ⟨h1, h2, h3, -⟩ := h
    subst h1 h2 h3
    exact ⟨[Event.ast_waitfor], s.nread, f, hv, by simp⟩
  | echoed f hw hr hv hm hc hx =>
    simp only at h
    rcases pre with _ | ⟨a, _ | ⟨b, _ | ⟨c, _ | ⟨d, _ | ⟨e, _ | ⟨g, pre⟩⟩⟩⟩⟩⟩ <;> simp at h
    obtain ⟨h1, h2, h3, -⟩ := h
    subst h1 h2 h3
    exact ⟨[Event.ast_waitfor], s.nread, f, hv, by simp⟩

theorem SendsAudioOnly_append (a b : List Event) (ha : SendsAudioOnly a)
    (hb : SendsAudioOnly b) : SendsAudioOnly (a ++ b) := by
  intro op p n hmem
  rcases List.mem_append.mp hmem with h | h
  · obtain ⟨hh, g, hg, rest⟩ := ha op p n h
    exact ⟨hh, g, List.mem_append.mpr (Or.inl hg), rest⟩
  · obtain ⟨hh, g, hg, rest⟩ := hb op p n h
    exact ⟨hh, g, List.mem_append.mpr (Or.inr hg), rest⟩

theorem SendsAudioOnly_body (env : Env) (res : Int) (s : Counters) :
    SendsAudioOnly (loop_body env res s).1 := by
  have hc := loop_body_spec env res s
  revert hc
  generalize loop_body env res s = st
  intro hc op p n hmem
  cases hc with
  | wait_failed hw => simp at hmem
  | read_null hw hr => simp at hmem
  | hangup f hw hr hd hg => simp at hmem
  | skipped f hw hr hv hd => simp at hmem
  | recv_failed f hw hr hv hm =>
    simp at hmem
    exact ⟨s.nread, f, by simp, hv, hmem.1, hmem.2.1, hmem.2.2⟩
  | recv_close f hw hr hv hm hc =>
    simp at hmem
    exact ⟨s.nread, f, by simp, hv, hmem.1, hmem.2.1, hmem.2.2⟩
  | write_failed f hw hr hv hm hc hx =>
    simp at hmem
    exact ⟨s.nread, f, by simp, hv, hmem.1, hmem.2.1, hmem.2.2⟩
  | echoed f hw hr hv hm hc hx =>
    simp at hmem
    exact ⟨s.nread, f, by simp, hv, hmem.1, hmem.2.1, hmem.2.2⟩

/-! ## Runs of the loop -/

theorem relay_loop_stop (env : Env) (res : Int) (n : Nat) (s s1 : Counters) (e : List Event)
    (r : Exit × Int) (h : loop_body env res s = (e, s1, some r)) :
    relay_loop (n + 1) env res s = (e, s1, some r) := by
  simp [relay_loop, h]

theorem relay_loop_continue (env : Env) (res : Int) (n : Nat) (s s1 : Counters) (e : List Event)
    (h : loop_body env res s = (e, s1, none)) :
    relay_loop (n + 1) env res s =
      (e ++ (relay_loop n env res s1).1, (relay_loop n env res s1).2) := by
  simp [relay_loop, h]

/-- The events of a run: those of the first pass, followed by those of the rest of the run
when the first pass does not return. -/
theorem relay_loop_succ (env : Env) (res : Int) (n : Nat) (s : Counters) :
    relay_loop (n + 1) env res s =
      match (loop_body env res s).2.2 with
      | some _ => loop_body env res s
      | none => ((loop_body env res s).1 ++ (relay_loop n env res (loop_body env res s).2.1).1,
          (relay_loop n env res (loop_body env res s).2.1).2) := by
  rcases hb : loop_body env res s with ⟨e1, s1, o1⟩
  cases o1 with
  | some r => simp [relay_loop_stop env res n s s1 e1 r hb]
  | none => simp [relay_loop_continue env res n s s1 e1 hb]

/-- A run that has returned ends with a pass through the loop body that returns. -/
theorem relay_loop_last (env : Env) (res : Int) :
    ∀ (fuel : Nat) (s s' : Counters) (evs : List Event) (r : Exit × Int),
      relay_loop fuel env res s = (evs, s', some r) →
      ∃ pre s0 last, evs = pre ++ last ∧ loop_body env res s0 = (last, s', some r) := by
  intro fuel
  induction fuel with
  | zero => intro s s' evs r h; simp [relay_loop] at h
  | succ n ih =>
    intro s s' evs r h
    rcases hb : loop_body env res s with ⟨e1, s1, o1⟩
    cases o1 with
    | some r1 =>
      rw [relay_loop_stop env res n s s1 e1 r1 hb] at h
      simp only [Prod.mk.injEq, Option.some.injEq] at h
      obtain ⟨h1, h2, h3⟩ := h
      subst h1 h2 h3
      exact ⟨[], s, e1, by simp, hb⟩
    | none =>
      rw [relay_loop_continue env res n s s1 e1 hb] at h
      rcases hr : relay_loop n env res s1 with ⟨e2, s2, o2⟩
      rw [hr] at h
      simp only [Prod.mk.injEq] at h
      obtain ⟨h1, h2, h3⟩ := h
      subst h1 h2 h3
      obtain ⟨pre, s0, last, he, hl⟩ := ih s1 s2 e2 r hr
      exact ⟨e1 ++ pre, s0, last, by simp [he], hl⟩

/-- A property of single events that holds in every pass holds along every run. -/
theorem relay_loop_forall (env : Env) (res : Int) (Q : Event → Prop)
    (hQ : ∀ s, ∀ e ∈ (loop_body env res s).1, Q e) :
    ∀ (fuel : Nat) (s : Counters), ∀ e ∈ (relay_loop fuel env res s).1, Q e := by
  intro fuel
  induction fuel with
  | zero => intro s e he; simp [relay_loop] at he
  | succ n ih =>
    intro s e he
    rw [relay_loop_succ] at he
    rcases hb : (loop_body env res s).2.2 with _ | r
    · rw [hb] at he
      simp only [List.mem_append] at he
      rcases he with he | he
      · exact hQ s e he
      · exact ih _ e he
    · rw [hb] at he
      exact hQ s e he

/-- A property of traces that holds of the empty trace, is kept by concatenation and holds
of every single pass holds of every run. -/
theorem relay_loop_trace_ind (env : Env) (res : Int) (P : List Event → Prop)
    (h0 : P []) (happ : ∀ a b, P a → P b → P (a ++ b))
    (hbody : ∀ s, P (loop_body env res s).1) :
    ∀ (fuel : Nat) (s : Counters), P (relay_loop fuel env res s).1 := by
  intro fuel
  induction fuel with
  | zero => intro s; simpa [relay_loop] using h0
  | succ n ih =>
    intro s
    rw [relay_loop_succ]
    rcases hb : (loop_body env res s).2.2 with _ | r
    · simp only
      exact happ _ _ (hbody s) (ih _)
    · simp only
      exact hbody s

/-- Neither does the run. -/
theorem relay_loop_send_irrelevant (env : Env) (g : Nat → Int) (res : Int) :
    ∀ (fuel : Nat) (s : Counters),
      relay_loop fuel { env with ast_websocket_write := g } res s = relay_loop fuel env res s := by
  intro fuel
  induction fuel with
  | zero => intro s; rfl
  | succ n ih =>
    intro s
    rw [relay_loop_succ, relay_loop_succ, loop_body_send_irrelevant]
    simp only [ih]

/-- With audio frames only, receives that succeed with an opcode other than CLOSE and Call
Leg writes that succeed, the loop is still running after any number of passes. -/
theorem relay_loop_keeps_running (env : Env) (res : Int)
    (hwait : ∀ i, env.ast_waitfor i > -1)
    (hread : ∀ i, ∃ f, env.ast_read i = some f ∧
      f.frametype = ast_frame_type.AST_FRAME_VOICE)
    (hrecv : ∀ i, (env.ast_websocket_read i).ret = 0 ∧
      (env.ast_websocket_read i).opcode ≠ ast_websocket_opcode.AST_WEBSOCKET_OPCODE_CLOSE)
    (hwrite : ∀ i, env.ast_write i = 0) :
    ∀ (N : Nat) (s : Counters),
      (relay_loop N env res s).2.2 = none ∧
      (relay_loop N env res s).2.1 = ⟨s.nwait + N, s.nread + N, s.nsend + N, s.nrecv + N,
        s.nwrite + N⟩ ∧
      (relay_loop N env res s).1.countP Event.isAudioRead = N ∧
      (relay_loop N env res s).1.countP Event.isSend = N := by
  intro N
  induction N with
  | zero => intro s; simp [relay_loop]
  | succ n ih =>
    intro s
    obtain ⟨f, hr, hv⟩ := hread s.nread
    have hb := lb_echoed env res s f (hwait _) hr hv (hrecv _).1 (hrecv _).2 (hwrite _)
    rw [relay_loop_continue env res n s _ _ hb]
    obtain ⟨h1, h2, h3, h4⟩ :=
      ih ⟨s.nwait + 1, s.nread + 1, s.nsend + 1, s.nrecv + 1, s.nwrite + 1⟩
    refine ⟨h1, ?_, ?_, ?_⟩
    · rw [h2]; simp only [Counters.mk.injEq]; omega
    · simp only [List.countP_append, h3]; simp [Event.isAudioRead, hv]; omega
    · simp only [List.countP_append, h4]; simp [Event.isSend]; omega

/-- From counters with no receive made yet and a first receive that fails: a run whose
trace holds a receive has returned -1 right after it. -/
theorem fatal_read_aux (env : Env) (res : Int)
    (hfail : (env.ast_websocket_read 0).ret ≠ 0) :
    ∀ (fuel : Nat) (s : Counters), s.nrecv = 0 →
      Event.ast_websocket_read ∈ (relay_loop fuel env res s).1 →
      (relay_loop fuel env res s).2.2 = some (Exit.ws_read_error, -1) ∧
      (relay_loop fuel env res s).1.countP Event.isLegWrite = 0 ∧
      (relay_loop fuel env res s).1.countP Event.isAudioRead = 1 ∧
      (relay_loop fuel env res s).1.countP Event.isRecv = 1 ∧
      ∃ pre h f, f.frametype = ast_frame_type.AST_FRAME_VOICE ∧
        (relay_loop fuel env res s).1 = pre ++ [Event.ast_read h (some f),
          Event.ast_websocket_write ast_websocket_opcode.AST_WEBSOCKET_OPCODE_BINARY
            f.data f.datalen,
          Event.ast_websocket_read] := by
  intro fuel
  induction fuel with
  | zero => intro s _ hmem; simp [relay_loop] at hmem
  | succ n ih =>
    intro s h0 hmem
    rw [h0.symm] at hfail
    by_cases hw : env.ast_waitfor s.nwait > -1
    · cases hr : env.ast_read s.nread with
      | none =>
        rw [relay_loop_stop env res n s _ _ _ (lb_read_null env res s hw hr)] at hmem
        simp at hmem
      | some f =>
        by_cases hv : f.frametype = ast_frame_type.AST_FRAME_VOICE
        · have hb := relay_loop_stop env res n s _ _ _ (lb_recv_failed env res s f hw hr hv hfail)
          rw [hb]
          refine ⟨rfl, by simp [Event.isLegWrite], by simp [Event.isAudioRead, hv],
            by simp [Event.isRecv], [Event.ast_waitfor], s.nread, f, hv, by simp⟩
        · by_cases hd : f.frametype = ast_frame_type.AST_FRAME_DTMF ∧
              f.subclass_integer = HANGUP_DIGIT
          · rw [relay_loop_stop env res n s _ _ _
              (lb_hangup env res s f hw hr hd.1 hd.2)] at hmem
            simp at hmem
          · have hb := relay_loop_continue env res n s _ _ (lb_skipped env res s f hw hr hv hd)
            rw [hb] at hmem ⊢
            simp only [List.mem_append, List.mem_cons, List.mem_singleton, reduceCtorEq,
              false_or, List.not_mem_nil] at hmem
            obtain ⟨h1, h2, h3, h4, pre, h, g, hg, he⟩ :=
              ih { s with nwait := s.nwait + 1, nread := s.nread + 1 } h0 hmem
            refine ⟨h1, ?_, ?_, ?_, Event.ast_waitfor :: Event.ast_read s.nread (some f) ::
              Event.ast_frfree s.nread :: pre, h, g, hg, ?_⟩
            · simp only [List.countP_append, h2]; simp [Event.isLegWrite]
            · simp only [List.countP_append, h3]; simp [Event.isAudioRead, hv]
            · simp only [List.countP_append, h4]; simp [Event.isRecv]
            · simp only [he]; simp
    · rw [relay_loop_stop env res n s _ _ _ (lb_wait_failed env res s hw)] at hmem
      simp at hmem

/-- A loop entered with `res = -1` that returns: the exit names the terminal condition, the
status is 0 on the hang-up exit and -1 on the others, and the status is 0 exactly when the
trace, after whatever calls `p` came before the loop, ends with the read and the release of
a DTMF frame with the digit `#`. -/
theorem relay_loop_exit_status (env : Env) (fuel : Nat) (s s' : Counters)
    (evs p : List Event) (x : Exit) (r : Int)
    (hrun : relay_loop fuel env (-1) s = (evs, s', some (x, r))) :
    ended_on env s' x ∧
    (r = 0 ↔ x = Exit.hangup_digit) ∧
    (x ≠ Exit.hangup_digit → r = -1) ∧
    (r = 0 ↔ ∃ pre h f, p ++ evs = pre ++ [Event.ast_read h (some f), Event.ast_frfree h] ∧
        f.frametype = ast_frame_type.AST_FRAME_DTMF ∧ f.subclass_integer = HANGUP_DIGIT) := by
  obtain ⟨pre, s0, last, he, hl⟩ := relay_loop_last env (-1) fuel s s' evs (x, r) hrun
  have hc := loop_body_spec env (-1) s0
  rw [hl] at hc
  subst he
  cases hc with
  | wait_failed hw =>
    refine ⟨by simpa [ended_on] using hw, by simp, by simp, ?_⟩
    constructor
    · intro h; simp at h
    · rintro ⟨p, h, f, he, -, -⟩
      have := congrArg List.reverse he
      simp at this
  | read_null hw hr =>
    refine ⟨by simpa [ended_on] using hr, by simp, by simp, ?_⟩
    constructor
    · intro h; simp at h
    · rintro ⟨p, h, f, he, -, -⟩
      have := congrArg List.reverse he
      simp at this
  | recv_failed f hw hr hv hm =>
    refine ⟨by simpa [ended_on] using hm, by simp, by simp, ?_⟩
    constructor
    · intro h; simp at h
    · rintro ⟨p, h, f, he, -, -⟩
      have := congrArg List.reverse he
      simp at this
  | recv_close f hw hr hv hm hc =>
    refine ⟨by simpa [ended_on] using ⟨hm, hc⟩, by simp, by simp, ?_⟩
    constructor
    · intro h; simp at h
    · rintro ⟨p, h, f, he, -, -⟩
      have := congrArg List.reverse he
      simp at this
  | write_failed f hw hr hv hm hc hx =>
    refine ⟨by simpa [ended_on] using hx, by simp, by simp, ?_⟩
    constructor
    · intro h; simp at h
    · rintro ⟨p, h, f, he, -, -⟩
      have := congrArg List.reverse he
      simp at this
  | hangup f hw hr hd hg =>
    refine ⟨by simpa [ended_on] using ⟨f, hr, hd, hg⟩, by simp, by simp, ?_⟩
    constructor
    · intro _
      exact ⟨p ++ (pre ++ [Event.ast_waitfor]), s0.nread, f, by simp, hd, hg⟩
    · intro _; rfl

/-- Every pass starts with the wait on the Call Leg. -/
theorem loop_body_head (env : Env) (res : Int) (s : Counters) :
    ∃ rest, (loop_body env res s).1 = Event.ast_waitfor :: rest := by
  have hc := loop_body_spec env res s
  revert hc
  generalize loop_body env res s = st
  intro hc
  cases hc <;> exact ⟨_, rfl⟩

/-- So does every run of at least one pass. -/
theorem relay_loop_head (env : Env) (res : Int) (n : Nat) (s : Counters) :
    ∃ rest, (relay_loop (n + 1) env res s).1 = Event.ast_waitfor :: rest := by
  obtain ⟨rest, hrest⟩ := loop_body_head env res s
  rw [relay_loop_succ]
  rcases hb : (loop_body env res s).2.2 with _ | r
  · exact ⟨rest ++ (relay_loop n env res (loop_body env res s).2.1).1, by simp [hrest]⟩
  · exact ⟨rest, hrest⟩

/-- A run that is still going after `k` passes goes on from the counters it reached. -/
theorem relay_loop_add (env : Env) (res : Int) (m : Nat) :
    ∀ (k : Nat) (s0 s1 : Counters) (e1 : List Event),
      relay_loop k env res s0 = (e1, s1, none) →
      relay_loop (k + m) env res s0 =
        (e1 ++ (relay_loop m env res s1).1, (relay_loop m env res s1).2) := by
  intro k
  induction k with
  | zero =>
    intro s0 s1 e1 h
    simp only [relay_loop, Prod.mk.injEq] at h
    obtain ⟨h1, h2, -⟩ := h
    subst h1 h2
    simp
  | succ n ih =>
    intro s0 s1 e1 h
    rcases hb : loop_body env res s0 with ⟨e, s2, o⟩
    cases o with
    | some r =>
      rw [relay_loop_stop env res n s0 s2 e r hb] at h
      simp at h
    | none =>
      rw [relay_loop_continue env res n s0 s2 e hb] at h
      rcases hr : relay_loop n env res s2 with ⟨e2, s3, o2⟩
      rw [hr] at h
      simp only [Prod.mk.injEq] at h
      obtain ⟨h1, h2, h3⟩ := h
      subst h1 h2 h3
      have hstep : n + 1 + m = (n + m) + 1 := by omega
      rw [hstep, relay_loop_continue env res (n + m) s0 s2 e hb, ih s2 s3 e2 hr]
      simp

/-- With a non-empty argument, a non-empty url and a connected websocket, `audiows_exec`
makes its two calls and runs the loop. -/
theorem audiows_exec_loop (env : Env) (d : String) (fuel : Nat)
    (hd : d.isEmpty = false) (hurl : (env.args_url d).isEmpty = false)
    (hok : env.create_result = ast_websocket_result.WS_OK) :
    audiows_exec env (some d) fuel =
      ([Event.pbx_builtin_setvar_helper "AUDIOWS_URL" (env.args_url d),
        Event.ast_websocket_client_create (env.args_url d) "echo"] ++
          (audiows_loop env fuel).1,
        (audiows_loop env fuel).2.2.map Prod.snd) := by
  simp [audiows_exec, hd, hurl, hok]

/-! ## The claims -/

/-- Claim C1. When `audiows_exec` has opened the websocket and its relay loop returns, the
returned status is 0 or -1; it is 0 exactly when the trace ends with the read and the
release of a DTMF frame with the digit `#`, which is exactly the hang-up exit; on every
other exit it is -1, and each exit is taken on the terminal condition it is named after
(failed wait, `NULL` read, failed receive, CLOSE message, failed Call Leg write). -/
theorem C1_exit_status (env : Env) (d : String) (fuel : Nat) (evs : List Event) (r : Int)
    (hd : d.isEmpty = false) (hurl : (env.args_url d).isEmpty = false)
    (hok : env.create_result = ast_websocket_result.WS_OK)
    (hrun : audiows_exec env (some d) fuel = (evs, some r)) :
    (r = 0 ∨ r = -1) ∧
    (r = 0 ↔ ∃ pre h f, evs = pre ++ [Event.ast_read h (some f), Event.ast_frfree h] ∧
        f.frametype = ast_frame_type.AST_FRAME_DTMF ∧ f.subclass_integer = HANGUP_DIGIT) ∧
    ∃ x s' evs2, audiows_loop env fuel = (evs2, s', some (x, r)) ∧
      evs = [Event.pbx_builtin_setvar_helper "AUDIOWS_URL" (env.args_url d),
        Event.ast_websocket_client_create (env.args_url d) "echo"] ++ evs2 ∧
      ended_on env s' x ∧
      (r = 0 ↔ x = Exit.hangup_digit) ∧
      (x ≠ Exit.hangup_digit → r = -1) := by
  rw [audiows_exec_loop env d fuel hd hurl hok] at hrun
  rcases hl : audiows_loop env fuel with ⟨evs2, s', o⟩
  rw [hl] at hrun
  simp only [Prod.mk.injEq] at hrun
  obtain ⟨he, ho⟩ := hrun
  cases o with
  | none => simp at ho
  | some xr =>
    obtain ⟨x, r2⟩ := xr
    simp only [Option.map_some', Option.some.injEq] at ho
    subst ho
    subst he
    have hl2 : relay_loop fuel env (-1) Counters.init = (evs2, s', some (x, r2)) := hl
    obtain ⟨h1, h2, h3, h4⟩ := relay_loop_exit_status env fuel Counters.init s' evs2
      [Event.pbx_builtin_setvar_helper "AUDIOWS_URL" (env.args_url d),
        Event.ast_websocket_client_create (env.args_url d) "echo"] x r2 hl2
    refine ⟨?_, h4, x, s', evs2, rfl, rfl, h1, h2, h3⟩
    by_cases hx : x = Exit.hangup_digit
    · exact Or.inl (h2.mpr hx)
    · exact Or.inr (h3 hx)

/-- The claim C1 theorem applied to the scenario of the spec: three passes, the last one on
the digit `#`, status 0. -/
theorem C1_exit_status_witness :
    audiows_exec env_e2e (some "ws://x") 3 =
      ((audiows_exec env_e2e (some "ws://x") 3).1, some 0) ∧
    ((0 : Int) = 0 ∨ (0 : Int) = -1) ∧
    ∃ x s' evs2, audiows_loop env_e2e 3 = (evs2, s', some (x, 0)) ∧
      (audiows_exec env_e2e (some "ws://x") 3).1 =
        [Event.pbx_builtin_setvar_helper "AUDIOWS_URL" (env_e2e.args_url "ws://x"),
          Event.ast_websocket_client_create (env_e2e.args_url "ws://x") "echo"] ++ evs2 ∧
      ended_on env_e2e s' x ∧
      ((0 : Int) = 0 ↔ x = Exit.hangup_digit) ∧
      (x ≠ Exit.hangup_digit → (0 : Int) = -1) :=
  have hrun : audiows_exec env_e2e (some "ws://x") 3 =
      ((audiows_exec env_e2e (some "ws://x") 3).1, some 0) := by decide
  have h := C1_exit_status env_e2e "ws://x" 3 (audiows_exec env_e2e (some "ws://x") 3).1 0
    (by decide) (by decide) rfl hrun
  ⟨hrun, h.1, h.2.2⟩

/-- Claim C2 fails on the code. When the receive fails, and likewise when it delivers a
CLOSE message, `audiows_exec` returns -1 straight after the receive: frame 0 was obtained
from `ast_read` and the trace holds no `ast_frfree` of it. -/
theorem C2_frame_not_released :
    audiows_exec env_recv_fail (some "ws://x") 1 =
      ([Event.pbx_builtin_setvar_helper "AUDIOWS_URL" "ws://x",
        Event.ast_websocket_client_create "ws://x" "echo",
        Event.ast_waitfor, Event.ast_read 0 (some (audio_frame 4 1)),
        Event.ast_websocket_write ast_websocket_opcode.AST_WEBSOCKET_OPCODE_BINARY [1, 1, 1, 1] 4,
        Event.ast_websocket_read], some (-1)) ∧
    (audiows_exec env_recv_fail (some "ws://x") 1).1.count (Event.ast_frfree 0) = 0 ∧
    audiows_exec env_recv_close (some "ws://x") 1 =
      ([Event.pbx_builtin_setvar_helper "AUDIOWS_URL" "ws://x",
        Event.ast_websocket_client_create "ws://x" "echo",
        Event.ast_waitfor, Event.ast_read 0 (some (audio_frame 4 1)),
        Event.ast_websocket_write ast_websocket_opcode.AST_WEBSOCKET_OPCODE_BINARY [1, 1, 1, 1] 4,
        Event.ast_websocket_read], some (-1)) ∧
    (audiows_exec env_recv_close (some "ws://x") 1).1.count (Event.ast_frfree 0) = 0 := by
  decide

/-- Claim C3, as the code has it. No run of `audiows_exec` calls the close operation of the
Transport Session, whatever the argument, the responses of the collaborators and the exit
taken: the session that was opened is still open when the function returns. -/
theorem C3_never_closed (env : Env) (data : Option String) (fuel : Nat) :
    Event.ast_websocket_close ∉ (audiows_exec env data fuel).1 := by
  have hl : ∀ e ∈ (audiows_loop env fuel).1, e ≠ Event.ast_websocket_close :=
    relay_loop_forall env (-1) (fun e => e ≠ Event.ast_websocket_close)
      (loop_body_no_close env (-1)) fuel Counters.init
  intro hmem
  unfold audiows_exec at hmem
  split at hmem
  · simp at hmem
  · split at hmem
    · simp at hmem
    · simp only at hmem
      split at hmem
      · simp at hmem
      · split at hmem
        · simp at hmem
        · simp only [List.mem_append] at hmem
          rcases hmem with h | h
          · simp at h
          · exact hl _ h rfl

/-- Claim C3 as stated fails: in the scenario of the spec the websocket is opened, the loop
returns 0 on the digit `#`, and the trace holds no close of the Transport Session. -/
theorem C3_counterexample :
    (audiows_exec env_e2e (some "ws://x") 3).2 = some 0 ∧
    Event.ast_websocket_client_create "ws://x" "echo" ∈
      (audiows_exec env_e2e (some "ws://x") 3).1 ∧
    (audiows_exec env_e2e (some "ws://x") 3).1.count Event.ast_websocket_close = 0 := by
  decide

/-- Claim C4 fails on the code. In the scenario of the claim (two audio frames of 100 bytes
of value 1, the digit `#`, two BINARY messages of 50 bytes of value 2) the run returns 0 and
the two Call Leg writes carry the 100 byte frames read from the Call Leg, not the 50 byte
payloads received from the transport. -/
theorem C4_writes_inbound_frame :
    (audiows_exec env_e2e (some "ws://x") 3).2 = some 0 ∧
    (audiows_exec env_e2e (some "ws://x") 3).1.filter Event.isLegWrite =
      [Event.ast_write 0 (reset_delivery (audio_frame 100 1)),
       Event.ast_write 1 (reset_delivery (audio_frame 100 1))] ∧
    (reset_delivery (audio_frame 100 1)).datalen = 100 ∧
    (reset_delivery (audio_frame 100 1)).data = List.replicate 100 1 ∧
    (env_e2e.ast_websocket_read 0).payload = List.replicate 50 2 ∧
    (env_e2e.ast_websocket_read 1).payload = List.replicate 50 2 ∧
    (env_e2e.ast_websocket_read 0).opcode = ast_websocket_opcode.AST_WEBSOCKET_OPCODE_BINARY ∧
    (env_e2e.ast_websocket_read 1).opcode = ast_websocket_opcode.AST_WEBSOCKET_OPCODE_BINARY := by
  decide

/-- Claim C5 as stated fails: an audio frame is read, the receive succeeds with opcode TEXT,
and the pass writes the frame to the Call Leg; the write fails and the pass returns -1. -/
theorem C5_counterexample :
    (env_text_write_fail.ast_websocket_read 0).ret = 0 ∧
    (env_text_write_fail.ast_websocket_read 0).opcode =
      ast_websocket_opcode.AST_WEBSOCKET_OPCODE_TEXT ∧
    loop_body env_text_write_fail (-1) Counters.init =
      ([Event.ast_waitfor, Event.ast_read 0 (some (audio_frame 4 1)),
        Event.ast_websocket_write ast_websocket_opcode.AST_WEBSOCKET_OPCODE_BINARY [1, 1, 1, 1] 4,
        Event.ast_websocket_read,
        Event.ast_write 0 (reset_delivery (audio_frame 4 1)),
        Event.ast_frfree 0],
       ⟨1, 1, 1, 1, 1⟩, some (Exit.write_failed, -1)) := by
  decide

/-- Claim C5, as the code has it. Take a run of `audiows_exec` whose loop is still going
after `k` passes, and let the next pass read an audio frame and receive, with success, a TEXT
message or one with another opcode that is neither BINARY nor CLOSE. That pass makes exactly
one Call Leg write and releases the frame once. When the write fails the function returns -1
at the end of the pass; when it succeeds no result is fixed, the loop is still going after
the pass, and what follows starts with the next wait on the Call Leg. -/
theorem C5_text_pass (env : Env) (d : String) (k : Nat) (evs : List Event) (s : Counters)
    (f : ast_frame)
    (hd : d.isEmpty = false) (hurl : (env.args_url d).isEmpty = false)
    (hok : env.create_result = ast_websocket_result.WS_OK)
    (hreach : audiows_loop env k = (evs, s, none))
    (hw : env.ast_waitfor s.nwait > -1) (hr : env.ast_read s.nread = some f)
    (hv : f.frametype = ast_frame_type.AST_FRAME_VOICE)
    (hm : (env.ast_websocket_read s.nrecv).ret = 0)
    (hop : (env.ast_websocket_read s.nrecv).opcode =
        ast_websocket_opcode.AST_WEBSOCKET_OPCODE_TEXT ∨
      (env.ast_websocket_read s.nrecv).opcode =
        ast_websocket_opcode.AST_WEBSOCKET_OPCODE_OTHER) :
    ∃ pass : List Event,
      pass.countP Event.isLegWrite = 1 ∧
      pass.count (Event.ast_frfree s.nread) = 1 ∧
      (env.ast_write s.nwrite ≠ 0 → ∀ n : Nat,
        audiows_exec env (some d) (k + (1 + n)) =
          ([Event.pbx_builtin_setvar_helper "AUDIOWS_URL" (env.args_url d),
            Event.ast_websocket_client_create (env.args_url d) "echo"] ++ (evs ++ pass),
           some (-1))) ∧
      (env.ast_write s.nwrite = 0 →
        audiows_loop env (k + 1) =
          (evs ++ pass,
            ⟨s.nwait + 1, s.nread + 1, s.nsend + 1, s.nrecv + 1, s.nwrite + 1⟩, none) ∧
        audiows_exec env (some d) (k + 1) =
          ([Event.pbx_builtin_setvar_helper "AUDIOWS_URL" (env.args_url d),
            Event.ast_websocket_client_create (env.args_url d) "echo"] ++ (evs ++ pass),
           none) ∧
        ∀ n : Nat, ∃ rest,
          (audiows_exec env (some d) (k + (1 + (n + 1)))).1 =
            [Event.pbx_builtin_setvar_helper "AUDIOWS_URL" (env.args_url d),
              Event.ast_websocket_client_create (env.args_url d) "echo"] ++
              (evs ++ (pass ++ Event.ast_waitfor :: rest))) := by
  have hc : (env.ast_websocket_read s.nrecv).opcode ≠
      ast_websocket_opcode.AST_WEBSOCKET_OPCODE_CLOSE := by
    rcases hop with h | h <;> rw [h] <;> decide
  have hreach2 : relay_loop k env (-1) Counters.init = (evs, s, none) := hreach
  have hadd : ∀ m, audiows_loop env (k + m) =
      (evs ++ (relay_loop m env (-1) s).1, (relay_loop m env (-1) s).2) :=
    fun m => relay_loop_add env (-1) m k Counters.init s evs hreach2
  refine ⟨[Event.ast_waitfor, Event.ast_read s.nread (some f),
    Event.ast_websocket_write ast_websocket_opcode.AST_WEBSOCKET_OPCODE_BINARY f.data f.datalen,
    Event.ast_websocket_read, Event.ast_write s.nread (reset_delivery f),
    Event.ast_frfree s.nread], by simp [Event.isLegWrite], by simp, ?_, ?_⟩
  · intro hx n
    have hb := lb_write_failed env (-1) s f hw hr hv hm hc hx
    have h1 : 1 + n = n + 1 := by omega
    rw [audiows_exec_loop env d _ hd hurl hok, hadd (1 + n), h1,
      relay_loop_stop env (-1) n s _ _ _ hb]
    simp
  · intro hx
    have hb := lb_echoed env (-1) s f hw hr hv hm hc hx
    have hone : relay_loop 1 env (-1) s =
        ([Event.ast_waitfor, Event.ast_read s.nread (some f),
          Event.ast_websocket_write ast_websocket_opcode.AST_WEBSOCKET_OPCODE_BINARY
            f.data f.datalen,
          Event.ast_websocket_read, Event.ast_write s.nread (reset_delivery f),
          Event.ast_frfree s.nread],
          ⟨s.nwait + 1, s.nread + 1, s.nsend + 1, s.nrecv + 1, s.nwrite + 1⟩, none) := by
      rw [relay_loop_continue env (-1) 0 s _ _ hb]
      simp [relay_loop]
    refine ⟨?_, ?_, ?_⟩
    · rw [hadd 1, hone]
    · rw [audiows_exec_loop env d _ hd hurl hok, hadd 1, hone]
      simp
    · intro n
      obtain ⟨rest, hrest⟩ := relay_loop_head env (-1) n
        ⟨s.nwait + 1, s.nread + 1, s.nsend + 1, s.nrecv + 1, s.nwrite + 1⟩
      have h1 : 1 + (n + 1) = (n + 1) + 1 := by omega
      refine ⟨rest, ?_⟩
      rw [audiows_exec_loop env d _ hd hurl hok, hadd (1 + (n + 1)), h1,
        relay_loop_continue env (-1) (n + 1) s _ _ hb, hrest]

/-- The claim C5 theorem applied to the second pass of a run whose receives are TEXT
messages and whose Call Leg writes succeed: after that pass no result is fixed. -/
theorem C5_text_pass_witness :
    (audiows_exec env_text_ok (some "ws://x") (1 + 1)).2 = none :=
  match C5_text_pass env_text_ok "ws://x" 1 (audiows_loop env_text_ok 1).1 ⟨1, 1, 1, 1, 1⟩
      (audio_frame 4 1) (by decide) (by decide) rfl (by decide)
      (by decide) rfl rfl rfl (Or.inl rfl) with
  | ⟨_, _, _, _, h⟩ => congrArg Prod.snd (h rfl).2.1

/-- Claim C6. In every run in which the first receive is called and fails, the function has
returned -1; the failed receive belongs to the pass of the first audio frame read and is the
last call of the trace, so that no Call Leg read and no transport operation follows it; the
trace holds no Call Leg write and exactly one receive. -/
theorem C6_fatal_read (env : Env) (fuel : Nat)
    (hfail : (env.ast_websocket_read 0).ret ≠ 0)
    (hcall : Event.ast_websocket_read ∈ (relay_loop fuel env (-1) Counters.init).1) :
    (relay_loop fuel env (-1) Counters.init).2.2 = some (Exit.ws_read_error, -1) ∧
    (relay_loop fuel env (-1) Counters.init).1.countP Event.isLegWrite = 0 ∧
    (relay_loop fuel env (-1) Counters.init).1.countP Event.isAudioRead = 1 ∧
    (relay_loop fuel env (-1) Counters.init).1.countP Event.isRecv = 1 ∧
    ∃ pre h f, f.frametype = ast_frame_type.AST_FRAME_VOICE ∧
      (relay_loop fuel env (-1) Counters.init).1 = pre ++ [Event.ast_read h (some f),
        Event.ast_websocket_write ast_websocket_opcode.AST_WEBSOCKET_OPCODE_BINARY
          f.data f.datalen,
        Event.ast_websocket_read] := by
  exact fatal_read_aux env (-1) hfail fuel Counters.init rfl hcall

/-- The claim C6 theorem applied to a Call Leg of audio frames and a transport whose
receive fails. -/
theorem C6_fatal_read_witness :
    (relay_loop 4 env_recv_fail (-1) Counters.init).2.2 = some (Exit.ws_read_error, -1) ∧
    (relay_loop 4 env_recv_fail (-1) Counters.init).1.countP Event.isLegWrite = 0 :=
  have h := C6_fatal_read env_recv_fail 4 (by decide) (by decide)
  ⟨h.1, h.2.1⟩

/-- Claim C7. With a transport whose send always fails and whose receive always succeeds,
and no other terminal condition (audio frames only, no CLOSE message, no failed Call Leg
write, no end of session), the loop has not returned after `N` passes, for every `N`, and has
by then read and forwarded `N` audio frames. For any collaborators at all, the outcome of a
run, its trace of calls and its counters are the same whatever the send returns. -/
theorem C7_send_failure_is_not_fatal (env : Env)
    (hwait : ∀ i, env.ast_waitfor i > -1)
    (hread : ∀ i, ∃ f, env.ast_read i = some f ∧
      f.frametype = ast_frame_type.AST_FRAME_VOICE)
    (_hsend : ∀ i, env.ast_websocket_write i ≠ 0)
    (hrecv : ∀ i, (env.ast_websocket_read i).ret = 0 ∧
      (env.ast_websocket_read i).opcode ≠ ast_websocket_opcode.AST_WEBSOCKET_OPCODE_CLOSE)
    (hwrite : ∀ i, env.ast_write i = 0) :
    (∀ N : Nat,
      (relay_loop N env (-1) Counters.init).2.2 = none ∧
      (relay_loop N env (-1) Counters.init).2.1 = ⟨N, N, N, N, N⟩ ∧
      (relay_loop N env (-1) Counters.init).1.countP Event.isAudioRead = N ∧
      (relay_loop N env (-1) Counters.init).1.countP Event.isSend = N) ∧
    (∀ (env2 : Env) (g : Nat → Int) (fuel : Nat) (res : Int) (s : Counters),
      relay_loop fuel { env2 with ast_websocket_write := g } res s =
        relay_loop fuel env2 res s) := by
  refine ⟨fun N => ?_, fun env2 g fuel res s => relay_loop_send_irrelevant env2 g res fuel s⟩
  have h := relay_loop_keeps_running env (-1) hwait hread hrecv hwrite N Counters.init
  simpa [Counters.init] using h

/-- The claim C7 theorem applied to a Call Leg of audio frames and a transport whose send
always fails and whose receive always delivers a TEXT message: after 5 passes the loop is
still running. -/
theorem C7_send_failure_is_not_fatal_witness :
    (relay_loop 5 env_text_ok (-1) Counters.init).2.2 = none ∧
    (relay_loop 5 env_text_ok (-1) Counters.init).1.countP Event.isAudioRead = 5 :=
  have h := (C7_send_failure_is_not_fatal env_text_ok
    (fun _ => by simp [env_text_ok])
    (fun _ => ⟨audio_frame 4 1, rfl, rfl⟩)
    (fun _ => by simp [env_text_ok])
    (fun _ => ⟨rfl, by simp [env_text_ok, ws_ok]⟩) (fun _ => rfl)).1 5
  ⟨h.1, h.2.2.1⟩

/-- Claim C8. A pass that reads a frame whose type is not audio (OTHER, or DTMF with any
digit) makes the wait, the read and the release of the frame and nothing else: no transport
send, no transport receive, no Call Leg write. In every run, whatever is sent to the
transport is a BINARY message holding the payload of an audio frame read before. -/
theorem C8_non_audio_pass (env : Env) (res : Int) (s : Counters) (f : ast_frame)
    (hw : env.ast_waitfor s.nwait > -1) (hr : env.ast_read s.nread = some f)
    (hv : f.frametype ≠ ast_frame_type.AST_FRAME_VOICE) :
    (loop_body env res s).1 =
      [Event.ast_waitfor, Event.ast_read s.nread (some f), Event.ast_frfree s.nread] ∧
    (loop_body env res s).2.1.nsend = s.nsend ∧
    (loop_body env res s).2.1.nrecv = s.nrecv ∧
    (loop_body env res s).2.1.nwrite = s.nwrite ∧
    (∀ (fuel : Nat) (s2 : Counters) (op : ast_websocket_opcode) (p : List Nat) (n : Nat),
      Event.ast_websocket_write op p n ∈ (relay_loop fuel env res s2).1 →
      ∃ h g, Event.ast_read h (some g) ∈ (relay_loop fuel env res s2).1 ∧
        g.frametype = ast_frame_type.AST_FRAME_VOICE ∧
        op = ast_websocket_opcode.AST_WEBSOCKET_OPCODE_BINARY ∧ p = g.data ∧ n = g.datalen) := by
  have hrun : ∀ (fuel : Nat) (s2 : Counters), SendsAudioOnly (relay_loop fuel env res s2).1 :=
    relay_loop_trace_ind env res SendsAudioOnly (by intro op p n h; simp at h)
      SendsAudioOnly_append (SendsAudioOnly_body env res)
  by_cases hd : f.frametype = ast_frame_type.AST_FRAME_DTMF ∧ f.subclass_integer = HANGUP_DIGIT
  · rw [lb_hangup env res s f hw hr hd.1 hd.2]
    exact ⟨rfl, rfl, rfl, rfl, fun fuel s2 => hrun fuel s2⟩
  · rw [lb_skipped env res s f hw hr hv hd]
    exact ⟨rfl, rfl, rfl, rfl, fun fuel s2 => hrun fuel s2⟩

/-- The claim C8 theorem applied to the pass that reads the DTMF frame of the scenario of
the spec. -/
theorem C8_non_audio_pass_witness :
    (loop_body env_e2e (-1) ⟨2, 2, 2, 2, 2⟩).1 =
      [Event.ast_waitfor, Event.ast_read 2 (some (dtmf_frame HANGUP_DIGIT)),
        Event.ast_frfree 2] :=
  (C8_non_audio_pass env_e2e (-1) ⟨2, 2, 2, 2, 2⟩ (dtmf_frame HANGUP_DIGIT)
    (by decide) rfl (by decide)).1

/-- Claim C9. A pass that reads an audio frame with payload `d` of length `n` makes exactly
one transport send, a BINARY message with payload `d` and length `n`, and makes it right
before its only transport receive. In every run each receive stands right after the send of
the audio frame just read, and there are no more receives than audio frames read. -/
theorem C9_send_before_receive (env : Env) (res : Int) (s : Counters) (f : ast_frame)
    (hw : env.ast_waitfor s.nwait > -1) (hr : env.ast_read s.nread = some f)
    (hv : f.frametype = ast_frame_type.AST_FRAME_VOICE) :
    (∃ rest, (loop_body env res s).1 =
      [Event.ast_waitfor, Event.ast_read s.nread (some f),
        Event.ast_websocket_write ast_websocket_opcode.AST_WEBSOCKET_OPCODE_BINARY
          f.data f.datalen,
        Event.ast_websocket_read] ++ rest ∧
      rest.countP Event.isSend = 0 ∧ rest.countP Event.isRecv = 0) ∧
    (loop_body env res s).1.countP Event.isSend = 1 ∧
    (loop_body env res s).1.countP Event.isRecv = 1 ∧
    (∀ (fuel : Nat) (s2 : Counters) (pre post : List Event),
      (relay_loop fuel env res s2).1 = pre ++ Event.ast_websocket_read :: post →
      ∃ pre2 h g, g.frametype = ast_frame_type.AST_FRAME_VOICE ∧
        pre = pre2 ++ [Event.ast_read h (some g),
          Event.ast_websocket_write ast_websocket_opcode.AST_WEBSOCKET_OPCODE_BINARY
            g.data g.datalen]) ∧
    (∀ (fuel : Nat) (s2 : Counters),
      (relay_loop fuel env res s2).1.countP Event.isRecv ≤
        (relay_loop fuel env res s2).1.countP Event.isAudioRead) := by
  have hrun1 : ∀ (fuel : Nat) (s2 : Counters), RecvFollowsSend (relay_loop fuel env res s2).1 :=
    relay_loop_trace_ind env res RecvFollowsSend
      (by intro pre post h; simp at h)
      RecvFollowsSend_append (RecvFollowsSend_body env res)
  have hrun2 : ∀ (fuel : Nat) (s2 : Counters),
      (relay_loop fuel env res s2).1.countP Event.isRecv ≤
        (relay_loop fuel env res s2).1.countP Event.isAudioRead :=
    relay_loop_trace_ind env res
      (fun evs => evs.countP Event.isRecv ≤ evs.countP Event.isAudioRead)
      (by simp)
      (by intro a b ha hb; simp only [List.countP_append]; omega)
      (loop_body_recv_le env res)
  refine ⟨?_, ?_, ?_, fun fuel s2 => hrun1 fuel s2, hrun2⟩
  all_goals
    by_cases hm : (env.ast_websocket_read s.nrecv).ret = 0
    · by_cases hc : (env.ast_websocket_read s.nrecv).opcode =
          ast_websocket_opcode.AST_WEBSOCKET_OPCODE_CLOSE
      · rw [lb_recv_close env res s f hw hr hv hm hc]
        first
          | exact ⟨[], by simp, by simp, by simp⟩
          | simp [Event.isSend, Event.isRecv]
      · by_cases hx : env.ast_write s.nwrite = 0
        · rw [lb_echoed env res s f hw hr hv hm hc hx]
          first
            | exact ⟨_, rfl, by simp [Event.isSend], by simp [Event.isRecv]⟩
            | simp [Event.isSend, Event.isRecv]
        · rw [lb_write_failed env res s f hw hr hv hm hc hx]
          first
            | exact ⟨_, rfl, by simp [Event.isSend], by simp [Event.isRecv]⟩
            | simp [Event.isSend, Event.isRecv]
    · rw [lb_recv_failed env res s f hw hr hv hm]
      first
        | exact ⟨[], by simp, by simp, by simp⟩
        | simp [Event.isSend, Event.isRecv]

/-- The claim C9 theorem applied to the first pass of the scenario of the spec. -/
theorem C9_send_before_receive_witness :
    (loop_body env_e2e (-1) Counters.init).1.countP Event.isSend = 1 ∧
    (loop_body env_e2e (-1) Counters.init).1.countP Event.isRecv = 1 ∧
    (relay_loop 3 env_e2e (-1) Counters.init).1.countP Event.isRecv ≤
      (relay_loop 3 env_e2e (-1) Counters.init).1.countP Event.isAudioRead :=
  have h := C9_send_before_receive env_e2e (-1) Counters.init (audio_frame 100 1)
    (by decide) rfl rfl
  ⟨h.2.1, h.2.2.1, h.2.2.2.2 3 Counters.init⟩

/-- Claim C10. A pass that reads an audio frame `f` and whose receive succeeds with an
opcode other than CLOSE makes exactly one Call Leg write; the frame written is `f` with its
delivery time set to zero (same type, subclass, payload and length). The write is the same
whatever message the receive delivers, as long as it succeeds with an opcode other than
CLOSE. -/
theorem C10_echo_of_inbound_frame (env : Env) (res : Int) (s : Counters) (f : ast_frame)
    (hw : env.ast_waitfor s.nwait > -1) (hr : env.ast_read s.nread = some f)
    (hv : f.frametype = ast_frame_type.AST_FRAME_VOICE)
    (hm : (env.ast_websocket_read s.nrecv).ret = 0)
    (hc : (env.ast_websocket_read s.nrecv).opcode ≠
      ast_websocket_opcode.AST_WEBSOCKET_OPCODE_CLOSE) :
    (loop_body env res s).1.filter Event.isLegWrite =
      [Event.ast_write s.nread (reset_delivery f)] ∧
    (reset_delivery f).frametype = f.frametype ∧
    (reset_delivery f).subclass_integer = f.subclass_integer ∧
    (reset_delivery f).data = f.data ∧
    (reset_delivery f).datalen = f.datalen ∧
    (reset_delivery f).delivery_tv_sec = 0 ∧
    (reset_delivery f).delivery_tv_usec = 0 ∧
    (∀ m2 : ws_read_result, m2.ret = 0 →
      m2.opcode ≠ ast_websocket_opcode.AST_WEBSOCKET_OPCODE_CLOSE →
      (loop_body { env with ast_websocket_read := fun _ => m2 } res s).1.filter
          Event.isLegWrite =
        (loop_body env res s).1.filter Event.isLegWrite) := by
  have key : ∀ e : Env, e.ast_waitfor s.nwait > -1 → e.ast_read s.nread = some f →
      (e.ast_websocket_read s.nrecv).ret = 0 →
      (e.ast_websocket_read s.nrecv).opcode ≠
        ast_websocket_opcode.AST_WEBSOCKET_OPCODE_CLOSE →
      (loop_body e res s).1.filter Event.isLegWrite =
        [Event.ast_write s.nread (reset_delivery f)] := by
    intro e hw2 hr2 hm2 hc2
    by_cases hx : e.ast_write s.nwrite = 0
    · rw [lb_echoed e res s f hw2 hr2 hv hm2 hc2 hx]
      simp [Event.isLegWrite]
    · rw [lb_write_failed e res s f hw2 hr2 hv hm2 hc2 hx]
      simp [Event.isLegWrite]
  refine ⟨key env hw hr hm hc, rfl, rfl, rfl, rfl, rfl, rfl, ?_⟩
  intro m2 h1 h2
  rw [key env hw hr hm hc]
  exact key { env with ast_websocket_read := fun _ => m2 } hw hr h1 h2

/-- The claim C10 theorem applied to the first pass of the scenario of the spec: the frame
written holds the 100 bytes read from the Call Leg. -/
theorem C10_echo_of_inbound_frame_witness :
    (loop_body env_e2e (-1) Counters.init).1.filter Event.isLegWrite =
      [Event.ast_write 0 (reset_delivery (audio_frame 100 1))] :=
  (C10_echo_of_inbound_frame env_e2e (-1) Counters.init (audio_frame 100 1)
    (by decide) rfl rfl rfl (by decide)).1

end AudioWS
